import Mathlib

/-!
# Verification of the storage / normalization / balance core of
# `controlefinanceiroap` (Somma personal-finance dashboard)

This file shallowly embeds the subsystem described in the repository spec:

* the value parser `ArmazenamentoHibrido._limpar_valor`, `_normalizar_tipo`,
  `_normalizar_conta` (src/utils.py, lines 1294-1322),
* the record normalizer `ArmazenamentoHibrido._normalizar_dados`
  (src/utils.py, lines 1256-1292),
* backend selection `ArmazenamentoHibrido._detectar_modo` and the readers
  `carregar_dados` / `_carregar_csv` / `_carregar_gsheets`
  (src/utils.py, lines 1148-1250),
* the account / credit-card registry `carregar_contas`, `salvar_conta`,
  `excluir_conta`, `salvar_cartao`, `excluir_cartao`
  (src/utils.py, lines 1552-1711),
* the account-group filter lists `obter_todas_contas_para_filtro`
  (src/utils.py, lines 1786-1819),
* the balance engine `calcular_saldo_anterior_dinamico`
  (src/utils.py, lines 1876-1910) and the daily cash-flow ledger
  `gerar_fluxo_caixa_diario` (src/pages/03_Previsibilidade.py, lines 60-184),
* the module-import structure of `src/Dashboard.py` and
  `src/pages/03_Previsibilidade.py`.

Modelling conventions:
* pandas DataFrames become lists of records; a cell is a `Val`
  (missing / string / number / parsed date);
* monetary amounts are rationals (`ℚ`); Python floats carry exact decimal
  values in every computation the claims touch, so `ℚ` is a faithful carrier;
* calendar dates are abstract day indices (`ℕ`): `pd.date_range(start, end,
  freq := 1 day)` enumerates consecutive indices, and `<` on indices is
  calendar order;
* Python string methods (`replace`, `strip`, `upper`, `float(...)`) are
  modelled char-by-char on `List Char`; `str.upper` is restricted to the
  ASCII letters and the accented letters that actually occur in the
  program's literals.
-/

namespace Somma

/-- A cell value of a tabular record: `na` is pandas `NaN`/`NaT`/`None`,
`str` a string cell, `num` a numeric cell, `date` a parsed datetime cell
(abstract day index). -/
inductive Val where
  | na : Val
  | str (s : String) : Val
  | num (q : ℚ) : Val
  | date (d : ℕ) : Val
deriving Repr, DecidableEq

/-! ## Python string primitives -/

/-- Python `str.isspace`-style whitespace recognised by `str.strip()`
(restricted to the whitespace that can occur in this program's data). -/
def pyIsSpace (c : Char) : Bool :=
  c == ' ' || c == '\t' || c == '\n' || c == '\r'

/-- Python `str.strip()` on a char list: drop whitespace from both ends. -/
def pyStrip (l : List Char) : List Char :=
  ((l.dropWhile pyIsSpace).reverse.dropWhile pyIsSpace).reverse

/-- Python `s.replace('R$', '')`: delete every (non-overlapping, scanned
left-to-right) occurrence of the two-char sequence `R$`. -/
def removeRS : List Char → List Char
  | [] => []
  | [c] => [c]
  | a :: b :: rest =>
    if a = 'R' ∧ b = '$' then removeRS rest
    else a :: removeRS (b :: rest)

/-- Python `str.upper()` restricted to ASCII letters plus the accented
letters appearing in the program's literals (`ç ã á à â é ê í ó ô õ ú ü`). -/
def pyUpperChar (c : Char) : Char :=
  if 'a' ≤ c ∧ c ≤ 'z' then Char.ofNat (c.toNat - 32)
  else if c = 'ç' then 'Ç'
  else if c = 'ã' then 'Ã'
  else if c = 'á' then 'Á'
  else if c = 'à' then 'À'
  else if c = 'â' then 'Â'
  else if c = 'é' then 'É'
  else if c = 'ê' then 'Ê'
  else if c = 'í' then 'Í'
  else if c = 'ó' then 'Ó'
  else if c = 'ô' then 'Ô'
  else if c = 'õ' then 'Õ'
  else if c = 'ú' then 'Ú'
  else if c = 'ü' then 'Ü'
  else c

/-- `str.upper()` on whole strings. -/
def pyUpper (s : String) : String :=
  ⟨s.data.map pyUpperChar⟩

/-- `str.strip()` on whole strings. -/
def pyStripStr (s : String) : String :=
  ⟨pyStrip s.data⟩

/-! ## Python `float(...)` on the decimal strings this program produces -/

/-- Numeric value of a decimal digit char, `none` for non-digits. -/
def digitVal? (c : Char) : Option ℕ :=
  if '0' ≤ c ∧ c ≤ '9' then some (c.toNat - 48) else none

/-- One step of the digit-run parse: any non-digit poisons the parse. -/
def parseStep (acc : Option ℕ) (c : Char) : Option ℕ :=
  match acc, digitVal? c with
  | some a, some d => some (a * 10 + d)
  | _, _ => none

/-- Parse a (possibly empty) run of decimal digit chars into a natural
number.  An empty list parses to `0`, matching Python `float` on forms
like `"123."` / `".5"` where one side of the point is empty. -/
def parseNatDigits (l : List Char) : Option ℕ :=
  l.foldl parseStep (some 0)

/-- Strip one optional leading sign, returning the sign factor and the
rest. -/
def pySign (l : List Char) : ℚ × List Char :=
  if l.head? = some '-' then (-1, l.tail)
  else if l.head? = some '+' then (1, l.tail)
  else (1, l)

/-- Split a char list at its decimal point: no point → integer part only;
exactly one point → (integer part, fractional part); two or more points →
malformed. -/
def splitDot (l : List Char) : Option (List Char × List Char) :=
  if l.count '.' = 0 then some (l, [])
  else if l.count '.' = 1 then
    some (l.takeWhile (fun c => c != '.'), (l.dropWhile (fun c => c != '.')).tail)
  else none

/-- Model of Python `float(...)` on plain decimal literals
(`[sign] digits [. digits]`, at least one digit overall).  The exotic
forms Python also accepts (`inf`, `nan`, exponents, `_` separators) never
arise from this program's serializers and are treated as parse failures. -/
def pyFloat (l : List Char) : Option ℚ :=
  let sp := pySign l
  match splitDot sp.2 with
  | none => none
  | some (ip, fp) =>
    if ip.isEmpty ∧ fp.isEmpty then none
    else
      match parseNatDigits ip, parseNatDigits fp with
      | some i, some f => some (sp.1 * ((i : ℚ) + (f : ℚ) / 10 ^ fp.length))
      | _, _ => none

/-! ## `ArmazenamentoHibrido._limpar_valor` (src/utils.py:1294-1304)

```python
def _limpar_valor(self, valor):
    if pd.isna(valor) or valor == '':
        return 0.0
    if isinstance(valor, (int, float)):
        return float(valor)
    valor_str = str(valor).replace('R$', '').strip().replace('.', '').replace(',', '.')
    try:
        return float(valor_str)
    except ValueError:
        return 0.0
```
A `date` cell reaches the string branch (`str(Timestamp)` never parses as
a float), hence yields `0`. -/
def limparValor : Val → ℚ
  | .na => 0
  | .num q => q
  | .date _ => 0
  | .str s =>
    if s = "" then 0
    else
      let limpo :=
        ((pyStrip (removeRS s.data)).filter (fun c => c != '.')).map
          (fun c => if c = ',' then '.' else c)
      match pyFloat limpo with
      | some q => q
      | none => 0

/-! ## The localized currency serializer

`formatar_valor_br` (src/utils.py:845-847) and the Google-Sheets `Valor`
serializer (src/utils.py:1347-1349, 1403) both compute
`f"R$ {valor:,.2f}".replace(',', 'X').replace('.', ',').replace('X', '.')`:
two fixed decimals, thousands groups of three, then the comma/point swap.
The embedding renders the swapped (Brazilian) form directly on an amount
given in whole cents, the precision at which the two-decimal format is
exact. -/

/-- Little-endian decimal digit chars of `n` (empty for `0`). -/
def digitosLE (n : ℕ) : List Char :=
  (Nat.digits 10 n).map Nat.digitChar

/-- Insert the thousands separator after every third char of a
little-endian digit list. -/
def groupLE : List Char → List Char
  | [] => []
  | [a] => [a]
  | [a, b] => [a, b]
  | [a, b, c] => [a, b, c]
  | a :: b :: c :: d :: rest => a :: b :: c :: '.' :: groupLE (d :: rest)

/-- Big-endian integer part with Brazilian thousands separators. -/
def parteInteiraBR (n : ℕ) : List Char :=
  if n = 0 then ['0'] else (groupLE (digitosLE n)).reverse

/-- Exactly two decimal digits, zero-padded (`n < 100` intended). -/
def doisDigitos (n : ℕ) : List Char :=
  [Nat.digitChar (n / 10), Nat.digitChar (n % 10)]

/-- The serialized localized currency string of a nonnegative amount of
`cents / 100` monetary units, e.g. `formatarValorBrCents 123456 =
"R$ 1.234,56"`. -/
def formatarValorBrCents (cents : ℕ) : String :=
  ⟨'R' :: '$' :: ' ' :: (parteInteiraBR (cents / 100) ++ ',' :: doisDigitos (cents % 100))⟩

/-! ## `_normalizar_tipo` and `_normalizar_conta` (src/utils.py:1306-1322) -/

/-- `_normalizar_tipo`: canonicalize the transaction kind from a free-form
label; anything unrecognized defaults to `Despesa` (expense). -/
def normalizarTipo (tipo : String) : String :=
  let t := pyUpper (pyStripStr tipo)
  if ["RECEITA", "ENTRADA", "CRÉDITO", "CREDITO"].contains t then "Receita"
  else if ["DESPESA", "SAÍDA", "SAIDA", "DÉBITO", "DEBITO", "PAGO", "EM ABERTO"].contains t then
    "Despesa"
  else "Despesa"

/-- The meal-voucher synonym list of `_normalizar_conta`. -/
def sinonimosVR : List String :=
  ["VALE REFEIÇÃO", "VALE REFEICAO", "VR", "VALE-REFEIÇÃO", "VALE-REFEICAO"]

/-- `_normalizar_conta`: canonicalize the account label; the meal-voucher
synonyms map to `Vale Refeição`, everything else (the `Comum` synonyms and
any other string, including registered custom account names) collapses to
`Comum`. -/
def normalizarConta (conta : String) : String :=
  let c := pyUpper (pyStripStr conta)
  if sinonimosVR.contains c then "Vale Refeição"
  else if ["CONTA COMUM", "COMUM", "PRINCIPAL", ""].contains c then "Comum"
  else "Comum"

/-! ## Record normalization `_normalizar_dados` (src/utils.py:1256-1292)

A table is a list of records over the canonical six columns
`['Data', 'Descricao', 'Categoria', 'Valor', 'Tipo', 'Conta']`.  The
column-synonym renaming stage (`df.rename(columns=mapeamento)`, the
injection of defaults for missing columns, and the projection onto the
system columns) resolves an arbitrary raw table onto these six fields;
`renomearColuna` models the synonym map itself, and records model the
table after column resolution, with arbitrary `Val` entries. -/

structure Linha where
  data : Val
  descricao : Val
  categoria : Val
  valor : Val
  tipo : Val
  conta : Val
deriving Repr, DecidableEq

/-- The column-synonym map `mapeamento` of `_normalizar_dados`
(src/utils.py:1258-1265); names outside the map are kept unchanged. -/
def renomearColuna (c : String) : String :=
  if c = "Vencimento" ∨ c = "data" ∨ c = "DATA" then "Data"
  else if c = "Descrição" ∨ c = "descricao" ∨ c = "DESCRICAO" then "Descricao"
  else if c = "categoria" ∨ c = "CATEGORIA" then "Categoria"
  else if c = "valor" ∨ c = "VALOR" then "Valor"
  else if c = "tipo" ∨ c = "TIPO" ∨ c = "Status" then "Tipo"
  else if c = "conta" ∨ c = "CONTA" then "Conta"
  else c

/-- The canonical column set `COLUNAS_SISTEMA` (src/utils.py:46). -/
def colunasSistema : List String :=
  ["Data", "Descricao", "Categoria", "Valor", "Tipo", "Conta"]

/-- Is a cell missing (`pd.isna`)? -/
def Val.isNa : Val → Bool
  | .na => true
  | _ => false

/-- `df.dropna(how='all')` drops a record only when every cell is missing. -/
def linhaTodaNa (r : Linha) : Bool :=
  r.data.isNa && r.descricao.isNa && r.categoria.isNa &&
    r.valor.isNa && r.tipo.isNa && r.conta.isNa

/-- Model of `pd.to_datetime(_, format='mixed', dayfirst=False)` on an ISO
`YYYY-MM-DD` cell: ten chars, digits around dashes, month 1-12, day 1-31.
The result is an abstract day index, monotone in calendar order (the
index's arithmetic structure is never used by the normalizer). -/
def parseDateIso (s : String) : Option ℕ :=
  match s.data with
  | [y1, y2, y3, y4, h1, m1, m2, h2, d1, d2] =>
    if h1 = '-' ∧ h2 = '-' then
      match digitVal? y1, digitVal? y2, digitVal? y3, digitVal? y4,
          digitVal? m1, digitVal? m2, digitVal? d1, digitVal? d2 with
      | some a, some b, some c, some d, some e, some f, some g, some h =>
        let ano := ((a * 10 + b) * 10 + c) * 10 + d
        let mes := e * 10 + f
        let dia := g * 10 + h
        if 1 ≤ mes ∧ mes ≤ 12 ∧ 1 ≤ dia ∧ dia ≤ 31 then
          some (ano * 372 + (mes - 1) * 31 + (dia - 1))
        else none
      | _, _, _, _, _, _, _, _ => none
    else none
  | _ => none

/-- `pd.to_datetime(col, errors='coerce', ...)` cell-wise: parsed dates
pass through, strings are parsed (unparseable → `NaT`), missing stays
missing, and a stray numeric cell coerces to `NaT` in this model. -/
def pdToDatetime : Val → Val
  | .date d => .date d
  | .str s =>
    match parseDateIso s with
    | some d => .date d
    | none => .na
  | _ => .na

/-- Python `str(...)` of a cell, as applied by `.astype(str)`; the exact
rendering of numeric/date cells is immaterial to every claim (only its
determinism matters) and is modelled by the decimal rendering of the
numerator / index. -/
def valParaStr : Val → String
  | .na => ""
  | .str s => s
  | .num q => toString q.num
  | .date d => toString d

/-- `col.fillna(x)`: replace missing cells by `x`. -/
def fillna (x : Val) : Val → Val
  | .na => x
  | v => v

/-- `col.replace('', y)`: replace cells equal to the empty string by `y`. -/
def substituirVazia (y : Val) (v : Val) : Val :=
  if v = .str "" then y else v

/-- `df['Descricao'].fillna('').astype(str)` cell-wise. -/
def normalizarCelulaDescricao (v : Val) : Val :=
  .str (valParaStr (fillna (.str "") v))

/-- `df['Categoria'].fillna('Outros').replace('', 'Outros')` cell-wise. -/
def normalizarCelulaCategoria (v : Val) : Val :=
  substituirVazia (.str "Outros") (fillna (.str "Outros") v)

/-- `df['Tipo'].fillna('Despesa').replace('', 'Despesa')` followed by
`.apply(_normalizar_tipo)` (which first casts the cell with `str(...)`),
cell-wise. -/
def normalizarCelulaTipo (v : Val) : Val :=
  .str (normalizarTipo (valParaStr (substituirVazia (.str "Despesa")
    (fillna (.str "Despesa") v))))

/-- `df['Conta'].fillna('Comum').replace('', 'Comum')` followed by
`.apply(_normalizar_conta)`, cell-wise. -/
def normalizarCelulaConta (v : Val) : Val :=
  .str (normalizarConta (valParaStr (substituirVazia (.str "Comum")
    (fillna (.str "Comum") v))))

/-- The per-record value transformations of `_normalizar_dados`
(src/utils.py:1280-1289), applied in source order. -/
def normalizarLinha (r : Linha) : Linha :=
  { data := pdToDatetime r.data
    descricao := normalizarCelulaDescricao r.descricao
    categoria := normalizarCelulaCategoria r.categoria
    valor := .num (limparValor r.valor)
    tipo := normalizarCelulaTipo r.tipo
    conta := normalizarCelulaConta r.conta }

/-- The final description filter `df[df['Descricao'].str.strip() != '']`
(src/utils.py:1290). -/
def descricaoNaoVazia (r : Linha) : Bool :=
  match r.descricao with
  | .str s => pyStripStr s != ""
  | _ => false

/-- `_normalizar_dados`: drop all-missing records, normalize each record's
cells, then drop records with a blank description.  (`reset_index` is the
identity on a list of records.) -/
def normalizarDados (t : List Linha) : List Linha :=
  ((t.filter (fun r => !linhaTodaNa r)).map normalizarLinha).filter descricaoNaoVazia

/-! ## Account / credit-card registry (src/utils.py:1552-1711)

The cosmetic catalog fields copied from `CATALOGO_BANCOS` (`banco_nome`,
`cor_hex`, `cor_secundaria`, `logo_url`) and the creation timestamp are
carried by the real records but are behaviourally inert; the embedding
keeps the load-bearing fields. -/

structure Conta where
  id : ℤ
  nome : String
  banco_id : String
  saldo_inicial : ℚ
  tipo_grupo : String
deriving Repr, DecidableEq

structure Cartao where
  id : ℤ
  nome : String
  banco_id : String
  limite : ℚ
  dia_fechamento : ℤ
  dia_vencimento : ℤ
deriving Repr, DecidableEq

/-- `TIPOS_GRUPO_CONTA` (src/utils.py:52). -/
def tiposGrupoConta : List String := ["Disponível", "Benefício"]

/-- Python `str.lower()` restricted to ASCII, for the duplicate-name
check. -/
def pyLowerChar (c : Char) : Char :=
  if 'A' ≤ c ∧ c ≤ 'Z' then Char.ofNat (c.toNat + 32) else c

def pyLower (s : String) : String :=
  ⟨s.data.map pyLowerChar⟩

/-- `salvar_conta` (src/utils.py:1563-1616) acting on the decoded state of
`contas.json`: reject case-insensitive duplicate names, default an invalid
group to `Disponível`, a missing initial balance to `0`, and assign
`id := len(contas) + 1`. -/
def salvarConta (contas : List Conta) (nome banco_id : String)
    (saldo_inicial : Option ℚ) (tipo_grupo : String) :
    List Conta × Bool × String :=
  if contas.any (fun c => pyLower c.nome = pyLower nome) then
    (contas, false, "Já existe uma conta com esse nome.")
  else
    let grupo := if tiposGrupoConta.contains tipo_grupo then tipo_grupo else "Disponível"
    let saldo := saldo_inicial.getD 0
    let nova : Conta :=
      { id := (contas.length : ℤ) + 1, nome := nome, banco_id := banco_id
        saldo_inicial := saldo, tipo_grupo := grupo }
    (contas ++ [nova], true, "Conta criada com sucesso!")

/-- `excluir_conta` (src/utils.py:1619-1630): rewrite the registry with
every record of the given id removed; the success branch always reports
success, the failure branch models `json.dump` raising, in which case the
decoded state is not durably replaced. -/
def excluirConta (contas : List Conta) (conta_id : ℤ) (gravacaoOk : Bool) :
    List Conta × Bool × String :=
  let restantes := contas.filter (fun c => c.id ≠ conta_id)
  if gravacaoOk then (restantes, true, "Conta excluída com sucesso!")
  else (contas, false, "Erro ao excluir conta")

/-- `salvar_cartao` (src/utils.py:1644-1697): duplicate-name check, day
range validation, `id := len(cartoes) + 1`. -/
def salvarCartao (cartoes : List Cartao) (nome banco_id : String) (limite : ℚ)
    (dia_fechamento dia_vencimento : ℤ) : List Cartao × Bool × String :=
  if cartoes.any (fun c => pyLower c.nome = pyLower nome) then
    (cartoes, false, "Já existe um cartão com esse nome.")
  else if ¬(1 ≤ dia_fechamento ∧ dia_fechamento ≤ 31) then
    (cartoes, false, "Dia de fechamento deve ser entre 1 e 31.")
  else if ¬(1 ≤ dia_vencimento ∧ dia_vencimento ≤ 31) then
    (cartoes, false, "Dia de vencimento deve ser entre 1 e 31.")
  else
    let novo : Cartao :=
      { id := (cartoes.length : ℤ) + 1, nome := nome, banco_id := banco_id
        limite := limite, dia_fechamento := dia_fechamento
        dia_vencimento := dia_vencimento }
    (cartoes ++ [novo], true, "Cartão criado com sucesso!")

/-- `excluir_cartao` (src/utils.py:1700-1711), same shape as
`excluirConta`. -/
def excluirCartao (cartoes : List Cartao) (cartao_id : ℤ) (gravacaoOk : Bool) :
    List Cartao × Bool × String :=
  let restantes := cartoes.filter (fun c => c.id ≠ cartao_id)
  if gravacaoOk then (restantes, true, "Cartão excluído com sucesso!")
  else (cartoes, false, "Erro ao excluir cartão")

/-- The persisted files the registry and ledger operations touch:
`contas.json`, `cartoes.json` and `dados_financeiros.csv`.  `excluir_conta`
reads and rewrites `contas.json` only. -/
structure Arquivos where
  contas : List Conta
  cartoes : List Cartao
  dadosCsv : List Linha
deriving Repr, DecidableEq

/-- `excluir_conta` as a transition on the whole persisted state: only the
account registry file is touched. -/
def excluirContaArquivos (st : Arquivos) (conta_id : ℤ) (gravacaoOk : Bool) :
    Arquivos × Bool × String :=
  let r := excluirConta st.contas conta_id gravacaoOk
  ({ st with contas := r.1 }, r.2)

/-! ## Account-group filter lists (src/utils.py:1786-1819) -/

structure FiltroContas where
  disponiveis : List String
  beneficios : List String
  todas : List String
deriving Repr, DecidableEq

/-- `obter_todas_contas_para_filtro`: split registered account names by
group (`tipo_grupo == 'Disponível'` vs everything else), then append the
legacy names `Comum` / `Vale Refeição` when absent. -/
def obterTodasContasParaFiltro (contas : List Conta) : FiltroContas :=
  let disponiveis0 := (contas.filter (fun c => c.tipo_grupo = "Disponível")).map (·.nome)
  let beneficios0 := (contas.filter (fun c => c.tipo_grupo ≠ "Disponível")).map (·.nome)
  let disponiveis :=
    if disponiveis0.contains "Comum" then disponiveis0 else disponiveis0 ++ ["Comum"]
  let beneficios :=
    if beneficios0.contains "Vale Refeição" then beneficios0
    else beneficios0 ++ ["Vale Refeição"]
  ⟨disponiveis, beneficios, disponiveis ++ beneficios⟩

/-! ## Balance engine (src/utils.py:1876-1910, src/pages/03_Previsibilidade.py:60-184)

The balance engine consumes the canonical table; a canonical transaction
carries a parsed date (`none` = `NaT`), a rational amount and string
kind / account labels. -/

structure Transacao where
  data : Option ℕ
  descricao : String
  categoria : String
  valor : ℚ
  tipo : String
  conta : String
deriving Repr, DecidableEq

/-- Column sum of `Valor`. -/
def somaValores (l : List Transacao) : ℚ :=
  (l.map (·.valor)).sum

/-- `calcular_saldo_anterior_dinamico` (src/utils.py:1876-1910): the net
(income − expense) of the transactions of one account-group strictly
before a date.  `NaT` dates compare false, hence are excluded.  The
registry is read inside `obter_todas_contas_para_filtro`; it is passed
explicitly here. -/
def calcularSaldoAnteriorDinamico (contas : List Conta) (df : List Transacao)
    (tipo_grupo : String) (data_inicio : ℕ) : ℚ :=
  if df.isEmpty then 0
  else
    let info := obterTodasContasParaFiltro contas
    let lista := if tipo_grupo = "Disponível" then info.disponiveis else info.beneficios
    let dfAnterior := df.filter (fun t =>
      lista.contains t.conta &&
        match t.data with
        | some d => decide (d < data_inicio)
        | none => false)
    if dfAnterior.isEmpty then 0
    else
      let receitas := somaValores (dfAnterior.filter (fun t => t.tipo = "Receita"))
      let despesas := somaValores (dfAnterior.filter (fun t => t.tipo = "Despesa"))
      receitas - despesas

/-- One row of the daily cash-flow ledger produced by
`gerar_fluxo_caixa_diario` (display-only columns omitted). -/
structure LinhaFluxo where
  data : ℕ
  entradasDisponivel : ℚ
  entradasBeneficio : ℚ
  saidasDisponivel : ℚ
  saidasBeneficio : ℚ
  entradas : ℚ
  saidas : ℚ
  saldoDia : ℚ
  saldoDiaDisponivel : ℚ
  saldoDiaBeneficio : ℚ
  saldoAcumComum : ℚ
  saldoAcumVR : ℚ
deriving Repr, DecidableEq

/-- Per-day, per-group aggregation: the sum of `Valor` over the period's
transactions of one kind whose account is in one group list and whose date
is the given day (the `groupby(...).sum()` + calendar merge + `fillna(0)`
of src/pages/03_Previsibilidade.py:99-159). -/
def somaDia (dfPeriodo : List Transacao) (tipo : String) (lista : List String)
    (d : ℕ) : ℚ :=
  somaValores (dfPeriodo.filter (fun t =>
    t.tipo = tipo && lista.contains t.conta && t.data = some d))

/-- Build the ledger rows day by day, threading the two cumulative
balances exactly as the `cumsum()` of src/pages/03_Previsibilidade.py:172-173
does. -/
def montarLinhasFluxo (dfPeriodo : List Transacao)
    (disponiveis beneficios : List String) :
    List ℕ → ℚ → ℚ → List LinhaFluxo
  | [], _, _ => []
  | d :: resto, accDisp, accBenef =>
    let eD := somaDia dfPeriodo "Receita" disponiveis d
    let eB := somaDia dfPeriodo "Receita" beneficios d
    let sD := somaDia dfPeriodo "Despesa" disponiveis d
    let sB := somaDia dfPeriodo "Despesa" beneficios d
    let linha : LinhaFluxo :=
      { data := d
        entradasDisponivel := eD, entradasBeneficio := eB
        saidasDisponivel := sD, saidasBeneficio := sB
        entradas := eD + eB, saidas := sD + sB
        saldoDia := (eD + eB) - (sD + sB)
        saldoDiaDisponivel := eD - sD, saldoDiaBeneficio := eB - sB
        saldoAcumComum := accDisp + (eD - sD)
        saldoAcumVR := accBenef + (eB - sB) }
    linha :: montarLinhasFluxo dfPeriodo disponiveis beneficios resto
      (accDisp + (eD - sD)) (accBenef + (eB - sB))

/-- `gerar_fluxo_caixa_diario` (src/pages/03_Previsibilidade.py:60-184):
drop `NaT` rows, compute both groups' prior balances, restrict to the
period, enumerate every calendar day of `[data_inicio, data_fim]`
(`pd.date_range`, empty when the range is reversed), aggregate per day
and accumulate.  Returns the rows and the two prior balances. -/
def gerarFluxoCaixaDiario (contas : List Conta) (df0 : List Transacao)
    (data_inicio data_fim : ℕ) : List LinhaFluxo × ℚ × ℚ :=
  let df := df0.filter (fun t => t.data.isSome)
  let info := obterTodasContasParaFiltro contas
  let saldoAntDisponivel := calcularSaldoAnteriorDinamico contas df "Disponível" data_inicio
  let saldoAntBeneficio := calcularSaldoAnteriorDinamico contas df "Benefício" data_inicio
  let dfPeriodo := df.filter (fun t =>
    match t.data with
    | some d => decide (data_inicio ≤ d) && decide (d ≤ data_fim)
    | none => false)
  let dias :=
    if data_fim < data_inicio then []
    else (List.range (data_fim - data_inicio + 1)).map (fun i => data_inicio + i)
  (montarLinhasFluxo dfPeriodo info.disponiveis info.beneficios dias
      saldoAntDisponivel saldoAntBeneficio,
    saldoAntDisponivel, saldoAntBeneficio)

/-! ## Hybrid storage backend selection (src/utils.py:1135-1254) -/

inductive Modo where
  | gsheets
  | csv
  | memoria
deriving Repr, DecidableEq

/-- The environment probed by `ArmazenamentoHibrido.__init__`:
does `credentials.json` exist, is the `gspread` library importable, does
`_conectar_gsheets` yield a worksheet handle, what does the remote table
hold, and does `dados_financeiros.csv` exist (and with which records). -/
structure Ambiente where
  credenciaisExistem : Bool
  gspreadDisponivel : Bool
  conexaoGsheets : Bool
  registrosRemotos : List Linha
  arquivoCsv : Option (List Linha)
deriving Repr, DecidableEq

/-- `_detectar_modo` (src/utils.py:1148-1163): try the remote backend only
when credentials and the client library are present and connecting
succeeds; otherwise fall back to the local file when it exists; otherwise
memory. -/
def detectarModo (env : Ambiente) : Modo :=
  if env.credenciaisExistem && env.gspreadDisponivel && env.conexaoGsheets then
    .gsheets
  else if env.arquivoCsv.isSome then .csv
  else .memoria

/-- `_carregar_csv` (src/utils.py:1236-1250): missing or empty file →
empty canonical table, otherwise the normalized file contents. -/
def carregarCsv (env : Ambiente) : List Linha :=
  match env.arquivoCsv with
  | none => []
  | some linhas => if linhas.isEmpty then [] else normalizarDados linhas

/-- `carregar_dados` (src/utils.py:1205-1234) for a detected mode that is
stable over the call (the downgrade path re-enters `_carregar_csv`). -/
def carregarDados (env : Ambiente) : List Linha :=
  match detectarModo env with
  | .gsheets =>
    if env.registrosRemotos.isEmpty then []
    else normalizarDados env.registrosRemotos
  | .csv => carregarCsv env
  | .memoria => []

/-! ## Module-import structure (src/Dashboard.py:13-44,
src/pages/03_Previsibilidade.py:12-27)

A Python `from utils import a, b, …` statement succeeds iff every listed
name is an attribute of the fully-executed `utils` module; the first
missing name raises `ImportError` and aborts the page load.
`utilsNomesDefinidos` lists every top-level binding `src/utils.py`
creates (imports, constants, functions, classes — the conditional
`requests` / `gspread` imports included, i.e. the most permissive
environment). -/

def utilsNomesDefinidos : List String :=
  ["st", "pd", "Path", "datetime", "timedelta", "shutil", "tempfile", "zipfile",
   "requests", "REQUESTS_DISPONIVEL",
   "gspread", "ServiceAccountCredentials", "SpreadsheetNotFound", "APIError",
   "GSPREAD_DISPONIVEL",
   "BASE_DIR", "CAMINHO_CREDENCIAIS", "CAMINHO_CSV", "CAMINHO_VERSION",
   "CAMINHO_PREFERENCIAS", "CAMINHO_CONTAS", "CAMINHO_CARTOES", "NOME_PLANILHA",
   "COLUNAS_SISTEMA", "TIPOS_CONTA", "TIPOS_GRUPO_CONTA", "MAPEAMENTO_CONTA_LEGADO",
   "CAT_VALE_REFEICAO", "CAT_DESPESA", "CAT_RECEITA", "CATEGORIAS_PADRAO",
   "TIPOS_TRANSACAO",
   "_gerar_logo_svg", "_carregar_logo_local", "CATALOGO_BANCOS", "LISTA_BANCOS",
   "GITHUB_OWNER", "GITHUB_REPO", "GITHUB_BRANCH", "ARQUIVOS_PROTEGIDOS",
   "CSS_GLOBAL", "LOGO_SIDEBAR",
   "aplicar_estilo_global", "modal_gestao", "exibir_botao_novo_lancamento",
   "exibir_menu_lateral", "exibir_rodape", "exibir_status_conexao",
   "formatar_valor_br", "formatar_mes_ano_completo", "formatar_mes_curto",
   "calcular_saldos", "calcular_totais_periodo",
   "ler_versao_local", "AutoUpdate",
   "carregar_preferencias_update", "salvar_preferencias_update",
   "deve_mostrar_atualizacao", "resetar_preferencias_update",
   "ArmazenamentoHibrido", "get_armazenamento", "carregar_dados",
   "limpar_cache_e_recarregar", "json",
   "carregar_contas", "salvar_conta", "excluir_conta",
   "carregar_cartoes", "salvar_cartao", "excluir_cartao", "obter_banco_info",
   "obter_contas_por_tipo", "obter_lista_contas_disponiveis",
   "obter_lista_contas_beneficio", "obter_tipo_grupo_conta",
   "obter_todas_contas_para_filtro", "calcular_saldos_dinamico",
   "calcular_saldo_anterior_dinamico"]

/-- The names `src/Dashboard.py` (lines 13-44) imports from `utils`. -/
def importsDashboard : List String :=
  ["aplicar_estilo_global", "exibir_rodape", "exibir_status_conexao",
   "exibir_menu_lateral", "formatar_valor_br", "formatar_mes_ano_completo",
   "formatar_mes_curto", "calcular_saldos", "calcular_totais_periodo",
   "get_armazenamento", "carregar_dados", "AutoUpdate",
   "deve_mostrar_atualizacao", "salvar_preferencias_update",
   "resetar_preferencias_update", "REQUESTS_DISPONIVEL", "TIPOS_TRANSACAO",
   "CATEGORIAS_PADRAO", "carregar_contas", "carregar_cartoes",
   "CATALOGO_BANCOS", "editar_conta", "obter_conta_por_id",
   "TIPOS_GRUPO_CONTA", "calcular_saldos_atuais",
   "calcular_saldo_anterior_com_inicial", "obter_saldo_total_disponivel",
   "obter_saldo_total_beneficios"]

/-- The names `src/pages/03_Previsibilidade.py` (lines 12-27) imports from
`utils`. -/
def importsPrevisibilidade : List String :=
  ["aplicar_estilo_global", "exibir_rodape", "exibir_status_conexao",
   "exibir_menu_lateral", "formatar_valor_br", "get_armazenamento",
   "carregar_dados", "obter_todas_contas_para_filtro",
   "calcular_saldo_anterior_dinamico", "obter_soma_saldos_iniciais_por_tipo",
   "calcular_saldos_atuais", "carregar_contas"]

/-- The imported names C2 singles out as defined nowhere in the source. -/
def nomesAusentes : List String :=
  ["calcular_saldos_atuais", "calcular_saldo_anterior_com_inicial",
   "obter_soma_saldos_iniciais_por_tipo", "obter_saldo_total_disponivel",
   "obter_saldo_total_beneficios", "editar_conta", "obter_conta_por_id"]

/-- Does `from utils import …` succeed, i.e. is every imported name
defined? -/
def importaOk (definidos importados : List String) : Bool :=
  importados.all (fun n => definidos.contains n)

/-! ## Spec-modelled registry-inclusive prior balance -/

/-- Modelled from the spec: the registry-inclusive prior balance
(spec §4.5 / §8: "prior_balance = registry-initial-balance +
historical-transaction-net"), which the spec designates as the implemented
contract but which is missing from the source (its carriers
`calcular_saldo_anterior_com_inicial` / `obter_soma_saldos_iniciais_por_tipo`
are imported yet defined nowhere).  It is the sum of `initial_balance`
over the registered accounts of the group plus the signed net (+Income,
−Expense) of the transactions whose account resolves to the group and
whose date is strictly before the cutoff. -/
def saldoAnteriorSpec (contas : List Conta) (df : List Transacao)
    (tipo_grupo : String) (data_inicio : ℕ) : ℚ :=
  let iniciais :=
    ((contas.filter (fun c => c.tipo_grupo = tipo_grupo)).map (·.saldo_inicial)).sum
  let info := obterTodasContasParaFiltro contas
  let lista := if tipo_grupo = "Disponível" then info.disponiveis else info.beneficios
  let anteriores := df.filter (fun t =>
    lista.contains t.conta &&
      match t.data with
      | some d => decide (d < data_inicio)
      | none => false)
  let receitas := somaValores (anteriores.filter (fun t => t.tipo = "Receita"))
  let despesas := somaValores (anteriores.filter (fun t => t.tipo = "Despesa"))
  iniciais + (receitas - despesas)

/-! # Helper lemmas -/

/-- `_normalizar_conta` collapses every label to one of the two canonical
group literals, decided solely by the voucher-synonym test. -/
theorem normalizarConta_eq (nome : String) :
    normalizarConta nome =
      if sinonimosVR.contains (pyUpper (pyStripStr nome)) then "Vale Refeição"
      else "Comum" := by
  by_cases h : sinonimosVR.contains (pyUpper (pyStripStr nome)) = true
  · simp [normalizarConta, h]
  · simp only [Bool.not_eq_true] at h
    simp [normalizarConta, h]

/-- The ledger has one row per enumerated day. -/
theorem montarLinhasFluxo_length (df : List Transacao) (disp ben : List String) :
    ∀ (dias : List ℕ) (a b : ℚ),
      (montarLinhasFluxo df disp ben dias a b).length = dias.length
  | [], _, _ => rfl
  | _ :: resto, a, b => by
    simp only [montarLinhasFluxo, List.length_cons]
    rw [montarLinhasFluxo_length df disp ben resto]

/-- The `i`-th ledger row carries the `i`-th enumerated day and that day's
per-group aggregates. -/
theorem montarLinhasFluxo_get (df : List Transacao) (disp ben : List String) :
    ∀ (dias : List ℕ) (a b : ℚ) (i : ℕ)
      (h : i < (montarLinhasFluxo df disp ben dias a b).length)
      (h2 : i < dias.length),
      ((montarLinhasFluxo df disp ben dias a b).get ⟨i, h⟩).data = dias.get ⟨i, h2⟩ ∧
      ((montarLinhasFluxo df disp ben dias a b).get ⟨i, h⟩).entradas
        = somaDia df "Receita" disp (dias.get ⟨i, h2⟩)
          + somaDia df "Receita" ben (dias.get ⟨i, h2⟩) ∧
      ((montarLinhasFluxo df disp ben dias a b).get ⟨i, h⟩).saidas
        = somaDia df "Despesa" disp (dias.get ⟨i, h2⟩)
          + somaDia df "Despesa" ben (dias.get ⟨i, h2⟩)
  | d :: resto, a, b, 0, _, _ => by
    exact ⟨rfl, rfl, rfl⟩
  | d :: resto, a, b, i + 1, h, h2 => by
    have h' : i < (montarLinhasFluxo df disp ben resto
        (a + (somaDia df "Receita" disp d - somaDia df "Despesa" disp d))
        (b + (somaDia df "Receita" ben d - somaDia df "Despesa" ben d))).length := by
      simpa [montarLinhasFluxo] using h
    have h2' : i < resto.length := by simpa using h2
    exact montarLinhasFluxo_get df disp ben resto _ _ i h' h2'

/-- Cascade shape of the two cumulative-balance columns: the `i`-th row's
accumulator equals the seed plus the sum of the first `i + 1` daily
movements of its group. -/
theorem montarLinhasFluxo_acum (df : List Transacao) (disp ben : List String) :
    ∀ (dias : List ℕ) (a b : ℚ) (i : ℕ)
      (h : i < (montarLinhasFluxo df disp ben dias a b).length),
      ((montarLinhasFluxo df disp ben dias a b).get ⟨i, h⟩).saldoAcumComum
        = a + (((montarLinhasFluxo df disp ben dias a b).take (i + 1)).map
            (·.saldoDiaDisponivel)).sum ∧
      ((montarLinhasFluxo df disp ben dias a b).get ⟨i, h⟩).saldoAcumVR
        = b + (((montarLinhasFluxo df disp ben dias a b).take (i + 1)).map
            (·.saldoDiaBeneficio)).sum
  | d :: resto, a, b, 0, _ => by
    constructor
    · simp [montarLinhasFluxo]
    · simp [montarLinhasFluxo]
  | d :: resto, a, b, i + 1, h => by
    have h' : i < (montarLinhasFluxo df disp ben resto
        (a + (somaDia df "Receita" disp d - somaDia df "Despesa" disp d))
        (b + (somaDia df "Receita" ben d - somaDia df "Despesa" ben d))).length := by
      simpa [montarLinhasFluxo] using h
    have ih := montarLinhasFluxo_acum df disp ben resto
      (a + (somaDia df "Receita" disp d - somaDia df "Despesa" disp d))
      (b + (somaDia df "Receita" ben d - somaDia df "Despesa" ben d)) i h'
    constructor
    · simp only [montarLinhasFluxo, List.get_cons_succ, List.take_succ_cons,
        List.map_cons, List.sum_cons]
      rw [ih.1]
      ring
    · simp only [montarLinhasFluxo, List.get_cons_succ, List.take_succ_cons,
        List.map_cons, List.sum_cons]
      rw [ih.2]
      ring

/-- A day none of the listed transactions falls on aggregates to zero. -/
theorem somaDia_eq_zero (l : List Transacao) (tipo : String) (lista : List String)
    (d : ℕ) (h : ∀ t ∈ l, t.data ≠ some d) : somaDia l tipo lista d = 0 := by
  unfold somaDia
  have hnil : l.filter (fun t =>
      t.tipo = tipo && lista.contains t.conta && t.data = some d) = [] := by
    refine List.filter_eq_nil_iff.mpr (fun t ht => ?_)
    simp [h t ht]
  rw [hnil]
  rfl

/-- Unfolded shape of `gerarFluxoCaixaDiario`'s row list. -/
theorem gerarFluxo_fst (contas : List Conta) (df0 : List Transacao) (s e : ℕ) :
    (gerarFluxoCaixaDiario contas df0 s e).1
      = montarLinhasFluxo
          ((df0.filter (fun t => t.data.isSome)).filter (fun t =>
            match t.data with
            | some d => decide (s ≤ d) && decide (d ≤ e)
            | none => false))
          (obterTodasContasParaFiltro contas).disponiveis
          (obterTodasContasParaFiltro contas).beneficios
          (if e < s then []
            else (List.range (e - s + 1)).map (fun i => s + i))
          (calcularSaldoAnteriorDinamico contas
            (df0.filter (fun t => t.data.isSome)) "Disponível" s)
          (calcularSaldoAnteriorDinamico contas
            (df0.filter (fun t => t.data.isSome)) "Benefício" s) := rfl

/-- `_normalizar_tipo` writ as a single test. -/
theorem normalizarTipo_eq (s : String) :
    normalizarTipo s =
      if ["RECEITA", "ENTRADA", "CRÉDITO", "CREDITO"].contains (pyUpper (pyStripStr s))
      then "Receita" else "Despesa" := by
  by_cases h :
      ["RECEITA", "ENTRADA", "CRÉDITO", "CREDITO"].contains (pyUpper (pyStripStr s)) = true
  · simp [normalizarTipo, h]
  · simp only [Bool.not_eq_true] at h
    simp [normalizarTipo, h]

/-- The kind normalizer only ever emits the two canonical kinds. -/
theorem normalizarTipo_valores (s : String) :
    normalizarTipo s = "Receita" ∨ normalizarTipo s = "Despesa" := by
  rw [normalizarTipo_eq]
  by_cases h :
      ["RECEITA", "ENTRADA", "CRÉDITO", "CREDITO"].contains (pyUpper (pyStripStr s)) = true
  · rw [if_pos h]; exact Or.inl rfl
  · rw [if_neg h]; exact Or.inr rfl

/-- The account normalizer only ever emits the two canonical labels. -/
theorem normalizarConta_valores (s : String) :
    normalizarConta s = "Vale Refeição" ∨ normalizarConta s = "Comum" := by
  rw [normalizarConta_eq]
  by_cases h : sinonimosVR.contains (pyUpper (pyStripStr s)) = true
  · rw [if_pos h]; exact Or.inl rfl
  · rw [if_neg h]; exact Or.inr rfl

/-- A normalized record is never all-missing: its description is a string
cell. -/
theorem linhaTodaNa_normalizarLinha (r : Linha) :
    linhaTodaNa (normalizarLinha r) = false := by
  simp [linhaTodaNa, normalizarLinha, Val.isNa]

/-- `pd.to_datetime` is stable on already-coerced cells. -/
theorem pdToDatetime_idem (v : Val) :
    pdToDatetime (pdToDatetime v) = pdToDatetime v := by
  cases v with
  | na => rfl
  | num q => rfl
  | date d => rfl
  | str s =>
    unfold pdToDatetime
    cases h : parseDateIso s <;> simp [h]

theorem normalizarCelulaDescricao_idem (v : Val) :
    normalizarCelulaDescricao (normalizarCelulaDescricao v)
      = normalizarCelulaDescricao v := by
  cases v <;> simp [normalizarCelulaDescricao, fillna, valParaStr]

theorem normalizarCelulaCategoria_idem (v : Val) :
    normalizarCelulaCategoria (normalizarCelulaCategoria v)
      = normalizarCelulaCategoria v := by
  cases v with
  | na => simp [normalizarCelulaCategoria, fillna, substituirVazia]
  | num q => simp [normalizarCelulaCategoria, fillna, substituirVazia]
  | date d => simp [normalizarCelulaCategoria, fillna, substituirVazia]
  | str s =>
    by_cases hs : s = ""
    · subst hs
      simp [normalizarCelulaCategoria, fillna, substituirVazia]
    · simp [normalizarCelulaCategoria, fillna, substituirVazia, hs]

theorem normalizarCelulaTipo_idem (v : Val) :
    normalizarCelulaTipo (normalizarCelulaTipo v) = normalizarCelulaTipo v := by
  rcases normalizarTipo_valores
      (valParaStr (substituirVazia (.str "Despesa") (fillna (.str "Despesa") v)))
    with h | h <;>
    simp only [normalizarCelulaTipo, h] <;>
    simp [fillna, substituirVazia, valParaStr] <;> decide

theorem normalizarCelulaConta_idem (v : Val) :
    normalizarCelulaConta (normalizarCelulaConta v) = normalizarCelulaConta v := by
  rcases normalizarConta_valores
      (valParaStr (substituirVazia (.str "Comum") (fillna (.str "Comum") v)))
    with h | h <;>
    simp only [normalizarCelulaConta, h] <;>
    simp [fillna, substituirVazia, valParaStr] <;> decide

/-- The per-record normalization of `_normalizar_dados` is idempotent. -/
theorem normalizarLinha_idem (r : Linha) :
    normalizarLinha (normalizarLinha r) = normalizarLinha r := by
  show Linha.mk _ _ _ _ _ _ = _
  rw [Linha.mk.injEq]
  exact ⟨pdToDatetime_idem r.data, normalizarCelulaDescricao_idem r.descricao,
    normalizarCelulaCategoria_idem r.categoria, rfl,
    normalizarCelulaTipo_idem r.tipo, normalizarCelulaConta_idem r.conta⟩

/-! ## Lemmas about the decimal rendering / parsing round trip -/

/-- The chars rendered for decimal digits parse back and are distinct from
every separator and sign character the pipeline treats specially. -/
theorem digitChar_propriedades (d : ℕ) (hd : d < 10) :
    digitVal? (Nat.digitChar d) = some d ∧
    Nat.digitChar d ≠ '.' ∧ Nat.digitChar d ≠ ',' ∧ Nat.digitChar d ≠ 'R' ∧
    Nat.digitChar d ≠ '-' ∧ Nat.digitChar d ≠ '+' ∧
    pyIsSpace (Nat.digitChar d) = false := by
  interval_cases d <;> exact ⟨rfl, by decide, by decide, by decide, by decide,
    by decide, rfl⟩

/-- Every char of `digitosLE n` is the rendering of a decimal digit. -/
theorem mem_digitosLE (n : ℕ) (c : Char) (hc : c ∈ digitosLE n) :
    ∃ d, d < 10 ∧ c = Nat.digitChar d := by
  rcases List.mem_map.mp hc with ⟨d, hd, rfl⟩
  exact ⟨d, Nat.digits_lt_base (by norm_num) hd, rfl⟩

/-- Grouping adds only the separator char. -/
theorem mem_groupLE : ∀ (l : List Char) (c : Char), c ∈ groupLE l → c ∈ l ∨ c = '.'
  | [], c, h => by simp [groupLE] at h
  | [a], c, h => by simpa [groupLE] using Or.inl (by simpa [groupLE] using h)
  | [a, b], c, h => by exact Or.inl (by simpa [groupLE] using h)
  | [a, b, d], c, h => by exact Or.inl (by simpa [groupLE] using h)
  | a :: b :: d :: e :: rest, c, h => by
    simp only [groupLE, List.mem_cons] at h
    rcases h with rfl | rfl | rfl | rfl | h
    · exact Or.inl (by simp)
    · exact Or.inl (by simp)
    · exact Or.inl (by simp)
    · exact Or.inr rfl
    · rcases mem_groupLE (e :: rest) c h with h2 | h2
      · exact Or.inl (by simp [List.mem_cons] at h2 ⊢; tauto)
      · exact Or.inr h2

/-- Every char of the formatted integer part is a digit char or the
thousands separator. -/
theorem mem_parteInteiraBR (n : ℕ) (c : Char) (hc : c ∈ parteInteiraBR n) :
    c = '.' ∨ ∃ d, d < 10 ∧ c = Nat.digitChar d := by
  unfold parteInteiraBR at hc
  by_cases hn : n = 0
  · rw [if_pos hn] at hc
    simp at hc
    exact Or.inr ⟨0, by norm_num, by rw [hc]; decide⟩
  · rw [if_neg hn, List.mem_reverse] at hc
    rcases mem_groupLE _ _ hc with h | h
    · exact Or.inr (mem_digitosLE n c h)
    · exact Or.inl h

/-- `removeRS` is the identity on strings that never mention `R`. -/
theorem removeRS_id : ∀ l : List Char, (∀ c ∈ l, c ≠ 'R') → removeRS l = l
  | [], _ => rfl
  | [c], _ => rfl
  | a :: b :: rest, h => by
    have ha : a ≠ 'R' := h a (by simp)
    simp only [removeRS]
    rw [if_neg (fun hab => ha hab.1),
      removeRS_id (b :: rest) (fun c hc => h c (List.mem_cons_of_mem _ hc))]

/-- `dropWhile` does nothing on a whitespace-free string. -/
theorem dropWhile_sem_espaco (l : List Char) (h : ∀ c ∈ l, pyIsSpace c = false) :
    l.dropWhile pyIsSpace = l := by
  cases l with
  | nil => rfl
  | cons a t =>
    rw [List.dropWhile_cons, if_neg]
    simp [h a (by simp)]

/-- `str.strip()` of one leading blank followed by whitespace-free text. -/
theorem pyStrip_espaco_cons (l : List Char) (h : ∀ c ∈ l, pyIsSpace c = false) :
    pyStrip (' ' :: l) = l := by
  unfold pyStrip
  rw [List.dropWhile_cons, if_pos (by decide),
    dropWhile_sem_espaco l h,
    dropWhile_sem_espaco l.reverse (fun c hc => h c (List.mem_reverse.mp hc)),
    List.reverse_reverse]

/-- `takeWhile` / `dropWhile` split an all-true prefix at the first
failing char. -/
theorem takeWhile_dropWhile_append (p : Char → Bool) :
    ∀ (l₁ : List Char) (c : Char) (l₂ : List Char),
      (∀ x ∈ l₁, p x = true) → p c = false →
      (l₁ ++ c :: l₂).takeWhile p = l₁ ∧ (l₁ ++ c :: l₂).dropWhile p = c :: l₂
  | [], c, l₂, _, hc => by
    constructor
    · rw [List.nil_append, List.takeWhile_cons, if_neg (by simp [hc])]
    · rw [List.nil_append, List.dropWhile_cons, if_neg (by simp [hc])]
  | a :: t, c, l₂, h, hc => by
    have ha : p a = true := h a (by simp)
    have ih := takeWhile_dropWhile_append p t c l₂ (fun x hx => h x (by simp [hx])) hc
    constructor
    · rw [List.cons_append, List.takeWhile_cons, if_pos (by simp [ha]), ih.1]
    · rw [List.cons_append, List.dropWhile_cons, if_pos (by simp [ha]), ih.2]

/-- Digit-run parsing inverts digit rendering, for any accumulator. -/
theorem foldl_parseStep_digits :
    ∀ (ds : List ℕ), (∀ d ∈ ds, d < 10) → ∀ a : ℕ,
      (ds.map Nat.digitChar).foldl parseStep (some a)
        = some (ds.foldl (fun x d => x * 10 + d) a)
  | [], _, a => rfl
  | d :: tl, h, a => by
    have hd : digitVal? (Nat.digitChar d) = some d :=
      (digitChar_propriedades d (h d (by simp))).1
    rw [List.map_cons, List.foldl_cons, List.foldl_cons]
    have hstep : parseStep (some a) (Nat.digitChar d) = some (a * 10 + d) := by
      simp [parseStep, hd]
    rw [hstep]
    exact foldl_parseStep_digits tl (fun x hx => h x (by simp [hx])) (a * 10 + d)

/-- Folding the reversed little-endian digit list recovers the number. -/
theorem foldl_reverse_digits (n : ℕ) :
    ((Nat.digits 10 n).reverse).foldl (fun x d => x * 10 + d) 0 = n := by
  rw [List.foldl_reverse]
  have hof : ∀ L : List ℕ, L.foldr (fun d x => x * 10 + d) 0 = Nat.ofDigits 10 L := by
    intro L
    induction L with
    | nil => simp [Nat.ofDigits]
    | cons d tl ih =>
      rw [List.foldr_cons, ih, Nat.ofDigits_cons]
      ring
  rw [hof, Nat.ofDigits_digits]

/-- Parsing the big-endian digit string of `n` yields `n`. -/
theorem parseNatDigits_digitos (n : ℕ) :
    parseNatDigits ((digitosLE n).reverse) = some n := by
  unfold parseNatDigits digitosLE
  rw [← List.map_reverse]
  rw [foldl_parseStep_digits ((Nat.digits 10 n).reverse)
    (fun d hd => Nat.digits_lt_base (by norm_num) (List.mem_reverse.mp hd))]
  rw [foldl_reverse_digits]

/-- Filtering the separator back out of a grouped digit list recovers the
digits. -/
theorem filter_groupLE : ∀ l : List Char, '.' ∉ l →
    (groupLE l).filter (fun c => c != '.') = l
  | [], _ => rfl
  | [a], h => by
    have ha : a ≠ '.' := fun hh => h (by simp [hh])
    rw [groupLE, List.filter_cons, if_pos (by simp [ha]), List.filter_nil]
  | [a, b], h => by
    have ha : a ≠ '.' := fun hh => h (by simp [hh])
    have hb : b ≠ '.' := fun hh => h (by simp [hh])
    rw [groupLE, List.filter_cons, if_pos (by simp [ha]),
      List.filter_cons, if_pos (by simp [hb]), List.filter_nil]
  | [a, b, c], h => by
    have ha : a ≠ '.' := fun hh => h (by simp [hh])
    have hb : b ≠ '.' := fun hh => h (by simp [hh])
    have hc : c ≠ '.' := fun hh => h (by simp [hh])
    rw [groupLE, List.filter_cons, if_pos (by simp [ha]),
      List.filter_cons, if_pos (by simp [hb]),
      List.filter_cons, if_pos (by simp [hc]), List.filter_nil]
  | a :: b :: c :: d :: rest, h => by
    have ha : a ≠ '.' := fun hh => h (by simp [hh])
    have hb : b ≠ '.' := fun hh => h (by simp [hh])
    have hc : c ≠ '.' := fun hh => h (by simp [hh])
    have hrest : '.' ∉ d :: rest := fun hh => h (by
      simp only [List.mem_cons] at hh ⊢
      tauto)
    rw [groupLE, List.filter_cons, if_pos (by simp [ha]),
      List.filter_cons, if_pos (by simp [hb]),
      List.filter_cons, if_pos (by simp [hc]),
      List.filter_cons, if_neg (by simp),
      filter_groupLE (d :: rest) hrest]

/-- Sign stripping does nothing on sign-free text. -/
theorem pySign_sem_sinal (l : List Char) (h : ∀ c ∈ l, c ≠ '-' ∧ c ≠ '+') :
    pySign l = (1, l) := by
  unfold pySign
  cases l with
  | nil => rw [if_neg (by simp), if_neg (by simp)]
  | cons a t =>
    have ha := h a (by simp)
    rw [if_neg (by simp [ha.1]), if_neg (by simp [ha.2])]

/-- The zero-padded two-digit rendering parses back, below 100. -/
theorem parseNatDigits_doisDigitos (f : ℕ) (hf : f < 100) :
    parseNatDigits (doisDigitos f) = some f := by
  have h1 : digitVal? (Nat.digitChar (f / 10)) = some (f / 10) :=
    (digitChar_propriedades _ (by omega)).1
  have h2 : digitVal? (Nat.digitChar (f % 10)) = some (f % 10) :=
    (digitChar_propriedades _ (by omega)).1
  unfold parseNatDigits doisDigitos
  rw [List.foldl_cons, List.foldl_cons, List.foldl_nil]
  simp only [parseStep, h1, h2]
  congr 1
  omega

/-- `float(...)` on a `digits.digits` decimal literal. -/
theorem pyFloat_decimal (intBE frac : List Char) (n f : ℕ)
    (hint : ∀ c ∈ intBE, ∃ d, d < 10 ∧ c = Nat.digitChar d)
    (hfrac : ∀ c ∈ frac, ∃ d, d < 10 ∧ c = Nat.digitChar d)
    (hne : intBE ≠ [])
    (hpi : parseNatDigits intBE = some n)
    (hpf : parseNatDigits frac = some f) :
    pyFloat (intBE ++ '.' :: frac) = some ((n : ℚ) + (f : ℚ) / 10 ^ frac.length) := by
  have hsign : pySign (intBE ++ '.' :: frac) = (1, intBE ++ '.' :: frac) := by
    refine pySign_sem_sinal _ (fun c hc => ?_)
    rcases List.mem_append.mp hc with h | h
    · rcases hint c h with ⟨d, hd, rfl⟩
      exact ⟨(digitChar_propriedades d hd).2.2.2.2.1,
        (digitChar_propriedades d hd).2.2.2.2.2.1⟩
    · rcases List.mem_cons.mp h with rfl | h
      · exact ⟨by decide, by decide⟩
      · rcases hfrac c h with ⟨d, hd, rfl⟩
        exact ⟨(digitChar_propriedades d hd).2.2.2.2.1,
          (digitChar_propriedades d hd).2.2.2.2.2.1⟩
  have hdotint : '.' ∉ intBE := by
    intro hh
    rcases hint _ hh with ⟨d, hd, hdc⟩
    exact (digitChar_propriedades d hd).2.1 hdc.symm
  have hdotfrac : '.' ∉ frac := by
    intro hh
    rcases hfrac _ hh with ⟨d, hd, hdc⟩
    exact (digitChar_propriedades d hd).2.1 hdc.symm
  have hcount : (intBE ++ '.' :: frac).count '.' = 1 := by
    rw [List.count_append, List.count_cons_self,
      List.count_eq_zero.mpr hdotint, List.count_eq_zero.mpr hdotfrac]
  have hsplit : splitDot (intBE ++ '.' :: frac) = some (intBE, frac) := by
    unfold splitDot
    rw [if_neg (by omega), if_pos hcount]
    have hsplit2 := takeWhile_dropWhile_append (fun c => c != '.') intBE '.' frac
      (fun x hx => by
        rcases hint x hx with ⟨d, hd, rfl⟩
        simp [(digitChar_propriedades d hd).2.1])
      (by decide)
    rw [hsplit2.1, hsplit2.2]
    rfl
  unfold pyFloat
  simp only [hsign, hsplit]
  rw [if_neg (by
    intro hh
    exact hne (List.isEmpty_iff.mp hh.1))]
  simp only [hpi, hpf]
  rw [one_mul]

/-- Both chars of the two-digit rendering are digit chars, below 100. -/
theorem mem_doisDigitos (m : ℕ) (hm : m < 100) (c : Char)
    (hc : c ∈ doisDigitos m) : ∃ d, d < 10 ∧ c = Nat.digitChar d := by
  unfold doisDigitos at hc
  rcases List.mem_cons.mp hc with rfl | hc
  · exact ⟨m / 10, by omega, rfl⟩
  · rcases List.mem_cons.mp hc with rfl | hc
    · exact ⟨m % 10, by omega, rfl⟩
    · simp at hc

/-- The cleanup chain of `_limpar_valor` (`replace('R$','')`, `strip()`,
`replace('.','')`, `replace(',','.')`) turns the localized currency string
into the plain big-endian decimal literal `digits.digits`. -/
theorem limpeza_formatado (cents : ℕ) :
    ((pyStrip (removeRS (formatarValorBrCents cents).data)).filter
        (fun c => c != '.')).map (fun c => if c = ',' then '.' else c)
      = (if cents / 100 = 0 then ['0'] else (digitosLE (cents / 100)).reverse)
        ++ '.' :: doisDigitos (cents % 100) := by
  have hflt : cents % 100 < 100 := Nat.mod_lt _ (by norm_num)
  have hbody : ∀ c ∈ parteInteiraBR (cents / 100) ++ ',' :: doisDigitos (cents % 100),
      c ≠ 'R' ∧ pyIsSpace c = false ∧ c ≠ ' ' := by
    intro c hc
    rcases List.mem_append.mp hc with h | h
    · rcases mem_parteInteiraBR _ c h with rfl | ⟨d, hd, rfl⟩
      · exact ⟨by decide, by decide, by decide⟩
      · refine ⟨(digitChar_propriedades d hd).2.2.2.1,
          (digitChar_propriedades d hd).2.2.2.2.2.2, ?_⟩
        have hsp := (digitChar_propriedades d hd).2.2.2.2.2.2
        intro hh
        rw [hh] at hsp
        exact absurd hsp (by decide)
    · rcases List.mem_cons.mp h with rfl | h
      · exact ⟨by decide, by decide, by decide⟩
      · rcases mem_doisDigitos _ hflt c h with ⟨d, hd, rfl⟩
        refine ⟨(digitChar_propriedades d hd).2.2.2.1,
          (digitChar_propriedades d hd).2.2.2.2.2.2, ?_⟩
        have hsp := (digitChar_propriedades d hd).2.2.2.2.2.2
        intro hh
        rw [hh] at hsp
        exact absurd hsp (by decide)
  have hdata : (formatarValorBrCents cents).data
      = 'R' :: '$' :: ' ' ::
        (parteInteiraBR (cents / 100) ++ ',' :: doisDigitos (cents % 100)) := rfl
  rw [hdata]
  have h1 : removeRS ('R' :: '$' :: ' ' ::
      (parteInteiraBR (cents / 100) ++ ',' :: doisDigitos (cents % 100)))
      = removeRS (' ' ::
        (parteInteiraBR (cents / 100) ++ ',' :: doisDigitos (cents % 100))) := by
    simp [removeRS]
  rw [h1, removeRS_id _ (by
    intro c hc
    rcases List.mem_cons.mp hc with rfl | hc
    · decide
    · exact (hbody c hc).1)]
  rw [pyStrip_espaco_cons _ (fun c hc => (hbody c hc).2.1)]
  have hdotint : '.' ∉ digitosLE (cents / 100) := by
    intro hh
    rcases mem_digitosLE _ _ hh with ⟨d, hd, hdc⟩
    exact (digitChar_propriedades d hd).2.1 hdc.symm
  have hfi : (parteInteiraBR (cents / 100)).filter (fun c => c != '.')
      = if cents / 100 = 0 then ['0'] else (digitosLE (cents / 100)).reverse := by
    unfold parteInteiraBR
    by_cases hn : cents / 100 = 0
    · rw [if_pos hn, if_pos hn]
      decide
    · rw [if_neg hn, if_neg hn, List.filter_reverse, filter_groupLE _ hdotint]
  have hfd : (doisDigitos (cents % 100)).filter (fun c => c != '.')
      = doisDigitos (cents % 100) := by
    refine List.filter_eq_self.mpr (fun c hc => ?_)
    rcases mem_doisDigitos _ hflt c hc with ⟨d, hd, rfl⟩
    simp [(digitChar_propriedades d hd).2.1]
  have hfc : List.filter (fun c => c != '.') (',' :: doisDigitos (cents % 100))
      = ',' :: doisDigitos (cents % 100) := by
    rw [List.filter_cons, if_pos (by decide), hfd]
  rw [List.filter_append, hfi, hfc, List.map_append]
  have hmi : ((if cents / 100 = 0 then ['0'] else (digitosLE (cents / 100)).reverse).map
      (fun c => if c = ',' then '.' else c))
      = (if cents / 100 = 0 then ['0'] else (digitosLE (cents / 100)).reverse) := by
    have hmem : ∀ c ∈ (if cents / 100 = 0 then ['0']
        else (digitosLE (cents / 100)).reverse), c ≠ ',' := by
      intro c hc
      by_cases hn : cents / 100 = 0
      · rw [if_pos hn] at hc
        simp at hc
        rw [hc]
        decide
      · rw [if_neg hn, List.mem_reverse] at hc
        rcases mem_digitosLE _ _ hc with ⟨d, hd, rfl⟩
        exact (digitChar_propriedades d hd).2.2.1
    calc ((if cents / 100 = 0 then ['0'] else (digitosLE (cents / 100)).reverse).map
          (fun c => if c = ',' then '.' else c))
        = ((if cents / 100 = 0 then ['0'] else (digitosLE (cents / 100)).reverse).map id) :=
          List.map_congr_left (fun c hc => if_neg (hmem c hc))
      _ = _ := List.map_id _
  have hmd : ((doisDigitos (cents % 100)).map (fun c => if c = ',' then '.' else c))
      = doisDigitos (cents % 100) := by
    have hmem : ∀ c ∈ doisDigitos (cents % 100), c ≠ ',' := by
      intro c hc
      rcases mem_doisDigitos _ hflt c hc with ⟨d, hd, rfl⟩
      exact (digitChar_propriedades d hd).2.2.1
    calc ((doisDigitos (cents % 100)).map (fun c => if c = ',' then '.' else c))
        = ((doisDigitos (cents % 100)).map id) :=
          List.map_congr_left (fun c hc => if_neg (hmem c hc))
      _ = _ := List.map_id _
  have hmc : List.map (fun c => if c = ',' then '.' else c)
      (',' :: doisDigitos (cents % 100)) = '.' :: doisDigitos (cents % 100) := by
    rw [List.map_cons, if_pos rfl, hmd]
  rw [hmi, hmc]

/-! # Theorems for the frozen claims -/

/-- C2: both the Dashboard page and the Previsibilidade page fail at
module import: each lists names among the seven cold-start helpers
(`calcular_saldos_atuais`, `calcular_saldo_anterior_com_inicial`,
`obter_soma_saldos_iniciais_por_tipo`, `obter_saldo_total_disponivel`,
`obter_saldo_total_beneficios`, `editar_conta`, `obter_conta_por_id`)
that no top-level binding of `utils` defines, so the `from utils import …`
statements raise `ImportError` and the registry-inclusive cold-start
balance path is unreachable. -/
theorem c2_paginas_quebram_no_import :
    importaOk utilsNomesDefinidos importsDashboard = false ∧
    importaOk utilsNomesDefinidos importsPrevisibilidade = false ∧
    nomesAusentes.all (fun n => !(utilsNomesDefinidos.contains n)) = true ∧
    nomesAusentes.all (fun n =>
      importsDashboard.contains n || importsPrevisibilidade.contains n) = true ∧
    importsDashboard.any (fun n => nomesAusentes.contains n) = true ∧
    importsPrevisibilidade.any (fun n => nomesAusentes.contains n) = true := by
  decide

/-- The cold-start account of claim C1: a single registered `Available`
account with initial balance 500. -/
def contaExemplo : Conta :=
  { id := 1, nome := "Conta Principal", banco_id := "Nubank"
    saldo_inicial := 500, tipo_grupo := "Disponível" }

/-- C1 (code bug): with an empty ledger and one registered Available
account with initial balance 500, the prior balance the implemented engine
(`calcular_saldo_anterior_dinamico`, the function
`gerar_fluxo_caixa_diario` calls) reports for Available at every date is
0, while the spec's registry-inclusive contract (`saldoAnteriorSpec`)
gives 500: the code never adds the registered initial balances, although
its own comments (src/pages/03_Previsibilidade.py:85, 412, 435) say it
does. -/
theorem c1_saldo_anterior_sem_saldo_inicial :
    (∀ d : ℕ, calcularSaldoAnteriorDinamico [contaExemplo] [] "Disponível" d = 0) ∧
    (∀ d : ℕ, saldoAnteriorSpec [contaExemplo] [] "Disponível" d = 500) ∧
    (0 : ℚ) ≠ 500 := by
  refine ⟨fun _ => rfl, fun d => ?_, by norm_num⟩
  simp [saldoAnteriorSpec, contaExemplo, somaValores]

/-- The create/create/delete/create run of claim C8, starting from an
empty registry: create account A, create B, delete the account with id 1,
then create C. -/
def execucaoContasC8 : List Conta :=
  let s1 := (salvarConta [] "A" "Nubank" (some 0) "Disponível").1
  let s2 := (salvarConta s1 "B" "Inter" (some 0) "Disponível").1
  let s3 := (excluirConta s2 1 true).1
  (salvarConta s3 "C" "Itau" (some 0) "Disponível").1

/-- C8 (code bug): ids are assigned as `len(contas) + 1`, so after a
delete the next create reuses a live id.  The concrete run
create A, create B, delete id 1, create C ends with two records both
carrying id 2: ids are neither pairwise distinct nor monotonically above
every previously assigned id (1 and 2 were already assigned). -/
theorem c8_ids_duplicados :
    execucaoContasC8.map (·.id) = [2, 2] ∧
    ¬ (execucaoContasC8.map (·.id)).Nodup := by
  constructor
  · decide
  · decide

/-- C10: deleting an account (or credit card) by id keeps exactly the
records of every other id, in order, and reports success even when no
record carried the id; the failure result occurs only on the
write-raises branch. -/
theorem c10_excluir_remove_por_id (contas : List Conta) (cartoes : List Cartao)
    (cid : ℤ) :
    (excluirConta contas cid true).1 = contas.filter (fun c => c.id ≠ cid) ∧
    (∀ c ∈ contas, c.id ≠ cid → c ∈ (excluirConta contas cid true).1) ∧
    (∀ c ∈ (excluirConta contas cid true).1, c.id ≠ cid ∧ c ∈ contas) ∧
    (excluirConta contas cid true).2.1 = true ∧
    (excluirConta contas cid false).2.1 = false ∧
    (excluirCartao cartoes cid true).1 = cartoes.filter (fun c => c.id ≠ cid) ∧
    (excluirCartao cartoes cid true).2.1 = true ∧
    (excluirCartao cartoes cid false).2.1 = false := by
  refine ⟨rfl, ?_, ?_, rfl, rfl, rfl, rfl, rfl⟩
  · intro c hc hne
    simp [excluirConta, List.mem_filter, hc, hne]
  · intro c hc
    simp only [excluirConta, if_pos rfl] at hc
    rcases List.mem_filter.mp hc with ⟨hmem, hdec⟩
    exact ⟨by simpa using hdec, hmem⟩

/-- C10 witness at a concrete registry: id 7 is absent, the delete removes
nothing and still succeeds. -/
theorem c10_excluir_remove_por_id_witness :
    (excluirConta [contaExemplo] 7 true).1
        = [contaExemplo].filter (fun c => c.id ≠ 7) ∧
    (∀ c ∈ [contaExemplo], c.id ≠ 7 → c ∈ (excluirConta [contaExemplo] 7 true).1) ∧
    (∀ c ∈ (excluirConta [contaExemplo] 7 true).1, c.id ≠ 7 ∧ c ∈ [contaExemplo]) ∧
    (excluirConta [contaExemplo] 7 true).2.1 = true ∧
    (excluirConta [contaExemplo] 7 false).2.1 = false ∧
    (excluirCartao [] 7 true).1 = List.filter (fun c => c.id ≠ 7) [] ∧
    (excluirCartao [] 7 true).2.1 = true ∧
    (excluirCartao [] 7 false).2.1 = false :=
  c10_excluir_remove_por_id [contaExemplo] [] 7

/-- C7 counterexample: the claim says an orphaned account name "survives
normalization as the same string", but `_normalizar_conta` rewrites the
(perfectly ordinary) account name `Nubank` to `Comum`. -/
theorem c7_nome_nao_sobrevive :
    normalizarConta "Nubank" = "Comum" ∧ "Comum" ≠ "Nubank" := by
  constructor
  · decide
  · decide

/-- C7 (amended): deleting an account rewrites only `contas.json` — the
transaction ledger (and the card registry) are untouched; but account
names do not survive normalization: every label collapses to
`Vale Refeição` (exactly when its stripped uppercase form is a
meal-voucher synonym) or to `Comum` (every other label, registered or
unknown), and since `Comum` is always in the Available filter list and
`Vale Refeição` in the Benefit filter list, the orphaned transaction is
summed into Benefit in the voucher-synonym case and into Available
otherwise — in particular unknown names default to Available. -/
theorem c7_exclusao_preserva_ledger_e_normalizacao_colapsa
    (st : Arquivos) (cid : ℤ) (nome : String) (contas : List Conta) :
    (excluirContaArquivos st cid true).1.dadosCsv = st.dadosCsv ∧
    (excluirContaArquivos st cid true).1.cartoes = st.cartoes ∧
    (normalizarConta nome = "Vale Refeição" ∨ normalizarConta nome = "Comum") ∧
    (normalizarConta nome = "Vale Refeição" ↔
      sinonimosVR.contains (pyUpper (pyStripStr nome)) = true) ∧
    (obterTodasContasParaFiltro contas).disponiveis.contains "Comum" = true ∧
    (obterTodasContasParaFiltro contas).beneficios.contains "Vale Refeição" = true := by
  refine ⟨rfl, rfl, ?_, ?_, ?_, ?_⟩
  · rw [normalizarConta_eq]
    by_cases h : sinonimosVR.contains (pyUpper (pyStripStr nome)) = true
    · rw [if_pos h]; exact Or.inl rfl
    · rw [if_neg h]; exact Or.inr rfl
  · rw [normalizarConta_eq]
    by_cases h : sinonimosVR.contains (pyUpper (pyStripStr nome)) = true
    · rw [if_pos h]
      simp only [h, iff_true]
    · rw [if_neg h]
      simp only [Bool.not_eq_true] at h
      simp only [h]
      constructor
      · intro hc
        exact absurd hc (by decide)
      · intro hc
        exact absurd hc (by simp)
  · simp only [obterTodasContasParaFiltro]
    split
    · assumption
    · simp
  · simp only [obterTodasContasParaFiltro]
    split
    · assumption
    · simp

/-- C5: whenever the remote probe cannot succeed (missing credentials,
missing client library, or a failed connection) and the local file exists,
`_detectar_modo` lands on the Local (csv) state — never Memory — and
`carregar_dados` returns the normalized contents of the local file. -/
theorem c5_fallback_termina_em_local (env : Ambiente) (linhas : List Linha)
    (hRemoto : (env.credenciaisExistem && env.gspreadDisponivel
        && env.conexaoGsheets) = false)
    (hLocal : env.arquivoCsv = some linhas) :
    detectarModo env = Modo.csv ∧
    detectarModo env ≠ Modo.memoria ∧
    carregarDados env = normalizarDados linhas := by
  have hm : detectarModo env = Modo.csv := by
    unfold detectarModo
    rw [if_neg (by simp [hRemoto]), if_pos (by simp [hLocal])]
  refine ⟨hm, by simp [hm], ?_⟩
  simp only [carregarDados, hm, carregarCsv, hLocal]
  by_cases hv : linhas.isEmpty
  · rw [if_pos hv]
    have : linhas = [] := by
      cases linhas with
      | nil => rfl
      | cons a t => simp [List.isEmpty] at hv
    rw [this]
    rfl
  · rw [if_neg hv]

/-- C5 witness: no credentials, no library, no connection, an existing
local file holding one raw record. -/
theorem c5_fallback_termina_em_local_witness :
    detectarModo ⟨false, false, false, [],
        some [⟨.str "2024-01-05", .str "Salário", .str "Salário",
          .str "R$ 1.000,00", .str "Receita", .str "Comum"⟩]⟩ = Modo.csv ∧
    detectarModo ⟨false, false, false, [],
        some [⟨.str "2024-01-05", .str "Salário", .str "Salário",
          .str "R$ 1.000,00", .str "Receita", .str "Comum"⟩]⟩ ≠ Modo.memoria ∧
    carregarDados ⟨false, false, false, [],
        some [⟨.str "2024-01-05", .str "Salário", .str "Salário",
          .str "R$ 1.000,00", .str "Receita", .str "Comum"⟩]⟩
      = normalizarDados [⟨.str "2024-01-05", .str "Salário", .str "Salário",
          .str "R$ 1.000,00", .str "Receita", .str "Comum"⟩] :=
  c5_fallback_termina_em_local _ _ (by decide) rfl

/-- C3: for every transaction table (the empty one included) and every
`start ≤ end`, the daily cash-flow ledger has exactly
`(end - start) + 1` rows, the `i`-th row carrying day `start + i` (hence
ascending, no gaps), and a day none of the table's transactions falls on
shows zero inflow and zero outflow. -/
theorem c3_ledger_diario_completo (contas : List Conta) (df : List Transacao)
    (s e : ℕ) (hse : s ≤ e) :
    ((gerarFluxoCaixaDiario contas df s e).1).length = e - s + 1 ∧
    (∀ i (h : i < ((gerarFluxoCaixaDiario contas df s e).1).length),
      (((gerarFluxoCaixaDiario contas df s e).1).get ⟨i, h⟩).data = s + i) ∧
    (∀ i (h : i < ((gerarFluxoCaixaDiario contas df s e).1).length),
      (∀ t ∈ df, t.data ≠ some (s + i)) →
      (((gerarFluxoCaixaDiario contas df s e).1).get ⟨i, h⟩).entradas = 0 ∧
      (((gerarFluxoCaixaDiario contas df s e).1).get ⟨i, h⟩).saidas = 0) := by
  have hne : ¬ e < s := not_lt.mpr hse
  have hdias : (if e < s then []
      else (List.range (e - s + 1)).map (fun i => s + i))
        = (List.range (e - s + 1)).map (fun i => s + i) := if_neg hne
  have hlen : ((gerarFluxoCaixaDiario contas df s e).1).length = e - s + 1 := by
    rw [gerarFluxo_fst, montarLinhasFluxo_length, hdias, List.length_map,
      List.length_range]
  have hget : ∀ i (h : i < ((gerarFluxoCaixaDiario contas df s e).1).length)
      (h2 : i < ((if e < s then []
        else (List.range (e - s + 1)).map (fun i => s + i)) : List ℕ).length),
      ((if e < s then []
        else (List.range (e - s + 1)).map (fun i => s + i)) : List ℕ).get ⟨i, h2⟩
        = s + i := by
    intro i h h2
    simp [hdias, List.get_eq_getElem]
  refine ⟨hlen, ?_, ?_⟩
  · intro i h
    have h' : i < (montarLinhasFluxo
        ((df.filter (fun t => t.data.isSome)).filter (fun t =>
          match t.data with
          | some d => decide (s ≤ d) && decide (d ≤ e)
          | none => false))
        (obterTodasContasParaFiltro contas).disponiveis
        (obterTodasContasParaFiltro contas).beneficios
        (if e < s then [] else (List.range (e - s + 1)).map (fun i => s + i))
        (calcularSaldoAnteriorDinamico contas
          (df.filter (fun t => t.data.isSome)) "Disponível" s)
        (calcularSaldoAnteriorDinamico contas
          (df.filter (fun t => t.data.isSome)) "Benefício" s)).length := by
      rw [← gerarFluxo_fst]; exact h
    have h2 : i < ((if e < s then []
        else (List.range (e - s + 1)).map (fun i => s + i)) : List ℕ).length := by
      rw [montarLinhasFluxo_length] at h'; exact h'
    have := (montarLinhasFluxo_get _ _ _ _ _ _ i h' h2).1
    rw [hget i h h2] at this
    exact this
  · intro i h hnot
    have h' : i < (montarLinhasFluxo
        ((df.filter (fun t => t.data.isSome)).filter (fun t =>
          match t.data with
          | some d => decide (s ≤ d) && decide (d ≤ e)
          | none => false))
        (obterTodasContasParaFiltro contas).disponiveis
        (obterTodasContasParaFiltro contas).beneficios
        (if e < s then [] else (List.range (e - s + 1)).map (fun i => s + i))
        (calcularSaldoAnteriorDinamico contas
          (df.filter (fun t => t.data.isSome)) "Disponível" s)
        (calcularSaldoAnteriorDinamico contas
          (df.filter (fun t => t.data.isSome)) "Benefício" s)).length := by
      rw [← gerarFluxo_fst]; exact h
    have h2 : i < ((if e < s then []
        else (List.range (e - s + 1)).map (fun i => s + i)) : List ℕ).length := by
      rw [montarLinhasFluxo_length] at h'; exact h'
    have hmem : ∀ t ∈ (df.filter (fun t => t.data.isSome)).filter (fun t =>
        match t.data with
        | some d => decide (s ≤ d) && decide (d ≤ e)
        | none => false), t.data ≠ some (s + i) := by
      intro t ht
      have := (List.mem_filter.mp ht).1
      exact hnot t (List.mem_filter.mp this).1
    have hz := montarLinhasFluxo_get
      ((df.filter (fun t => t.data.isSome)).filter (fun t =>
        match t.data with
        | some d => decide (s ≤ d) && decide (d ≤ e)
        | none => false))
      (obterTodasContasParaFiltro contas).disponiveis
      (obterTodasContasParaFiltro contas).beneficios
      _ _ _ i h' h2
    rw [hget i h h2] at hz
    constructor
    · have h0 := hz.2.1
      rw [somaDia_eq_zero _ _ _ _ hmem, somaDia_eq_zero _ _ _ _ hmem, add_zero] at h0
      exact h0
    · have h0 := hz.2.2
      rw [somaDia_eq_zero _ _ _ _ hmem, somaDia_eq_zero _ _ _ _ hmem, add_zero] at h0
      exact h0

/-- C3 witness: empty registry and ledger over the three-day range
`[2, 4]`; day index 1 is day 3 with zero movement. -/
theorem c3_ledger_diario_completo_witness :
    ((gerarFluxoCaixaDiario [] [] 2 4).1).length = 4 - 2 + 1 ∧
    (((gerarFluxoCaixaDiario [] [] 2 4).1).get
      ⟨1, by rw [(c3_ledger_diario_completo [] [] 2 4 (by norm_num)).1]; norm_num⟩).data
        = 2 + 1 ∧
    (((gerarFluxoCaixaDiario [] [] 2 4).1).get
      ⟨1, by rw [(c3_ledger_diario_completo [] [] 2 4 (by norm_num)).1]; norm_num⟩).entradas
        = 0 := by
  have hc := c3_ledger_diario_completo [] [] 2 4 (by norm_num)
  have hb : 1 < ((gerarFluxoCaixaDiario ([] : List Conta) [] 2 4).1).length := by
    rw [hc.1]; norm_num
  exact ⟨hc.1, hc.2.1 1 hb, (hc.2.2 1 hb (by intro t ht; simp at ht)).1⟩

/-- C4: the daily ledger is insensitive to null-date transactions (they
are dropped before any aggregation, so they land on no day), and for every
day index `i` the cumulative balance of each group equals that group's
prior balance at the period start plus the running sum of the group's
daily net movements over days `0..i`. -/
theorem c4_cascata_saldo_acumulado (contas : List Conta) (df : List Transacao)
    (s e : ℕ) :
    gerarFluxoCaixaDiario contas (df.filter (fun t => t.data.isSome)) s e
        = gerarFluxoCaixaDiario contas df s e ∧
    ∀ i (h : i < ((gerarFluxoCaixaDiario contas df s e).1).length),
      (((gerarFluxoCaixaDiario contas df s e).1).get ⟨i, h⟩).saldoAcumComum
        = calcularSaldoAnteriorDinamico contas
            (df.filter (fun t => t.data.isSome)) "Disponível" s
          + ((((gerarFluxoCaixaDiario contas df s e).1).take (i + 1)).map
              (·.saldoDiaDisponivel)).sum ∧
      (((gerarFluxoCaixaDiario contas df s e).1).get ⟨i, h⟩).saldoAcumVR
        = calcularSaldoAnteriorDinamico contas
            (df.filter (fun t => t.data.isSome)) "Benefício" s
          + ((((gerarFluxoCaixaDiario contas df s e).1).take (i + 1)).map
              (·.saldoDiaBeneficio)).sum := by
  constructor
  · have hfilt : (df.filter (fun t => t.data.isSome)).filter (fun t => t.data.isSome)
        = df.filter (fun t => t.data.isSome) := by
      simp [List.filter_filter]
    simp only [gerarFluxoCaixaDiario, hfilt]
  · intro i h
    exact montarLinhasFluxo_acum _ _ _ _ _ _ i h

/-- C4 witness: one dated transaction (income of 1000 on day 3) over the
range `[2, 4]`, checked at day index 2. -/
theorem c4_cascata_saldo_acumulado_witness :
    gerarFluxoCaixaDiario []
        ([⟨some 3, "Salário", "Salário", 1000, "Receita", "Comum"⟩].filter
          (fun t => t.data.isSome)) 2 4
      = gerarFluxoCaixaDiario []
          [⟨some 3, "Salário", "Salário", 1000, "Receita", "Comum"⟩] 2 4 ∧
    (((gerarFluxoCaixaDiario []
        [⟨some 3, "Salário", "Salário", 1000, "Receita", "Comum"⟩] 2 4).1).get
      ⟨2, by rw [gerarFluxo_fst, montarLinhasFluxo_length, if_neg (by norm_num)]
             simp⟩).saldoAcumComum
      = calcularSaldoAnteriorDinamico []
          ([⟨some 3, "Salário", "Salário", 1000, "Receita", "Comum"⟩].filter
            (fun t => t.data.isSome)) "Disponível" 2
        + ((((gerarFluxoCaixaDiario []
            [⟨some 3, "Salário", "Salário", 1000, "Receita", "Comum"⟩] 2 4).1).take
              (2 + 1)).map (·.saldoDiaDisponivel)).sum := by
  have hb : 2 < ((gerarFluxoCaixaDiario ([] : List Conta)
      [⟨some 3, "Salário", "Salário", 1000, "Receita", "Comum"⟩] 2 4).1).length := by
    rw [gerarFluxo_fst, montarLinhasFluxo_length, if_neg (by norm_num)]
    simp
  have hc := c4_cascata_saldo_acumulado []
    [⟨some 3, "Salário", "Salário", 1000, "Receita", "Comum"⟩] 2 4
  exact ⟨hc.1, (hc.2 2 hb).1⟩

/-- Every record produced by `normalizarDados` is a row-pipeline image and
passes the description filter. -/
theorem mem_normalizarDados (t : List Linha) (r : Linha)
    (hr : r ∈ normalizarDados t) :
    (∃ x, r = normalizarLinha x) ∧ descricaoNaoVazia r = true := by
  unfold normalizarDados at hr
  have h1 := List.mem_filter.mp hr
  rcases List.mem_map.mp h1.1 with ⟨x, _, hx⟩
  exact ⟨⟨x, hx.symm⟩, h1.2⟩

/-- A table of filter-passing row-pipeline fixed points normalizes to
itself. -/
theorem normalizarDados_fixa (m : List Linha)
    (hm : ∀ r ∈ m, (∃ x, r = normalizarLinha x) ∧ descricaoNaoVazia r = true) :
    normalizarDados m = m := by
  induction m with
  | nil => rfl
  | cons a tl ih =>
    obtain ⟨⟨x, hx⟩, hdesc⟩ := hm a (List.mem_cons_self a tl)
    have hna : (!linhaTodaNa a) = true := by
      rw [hx, linhaTodaNa_normalizarLinha]
      rfl
    have hfix : normalizarLinha a = a := by
      rw [hx]
      exact normalizarLinha_idem x
    have htl := ih (fun r hr => hm r (List.mem_cons_of_mem _ hr))
    unfold normalizarDados at htl ⊢
    rw [List.filter_cons, if_pos hna, List.map_cons, hfix,
      List.filter_cons, if_pos hdesc, htl]

/-- C9: `_normalizar_dados` is idempotent — re-normalizing its output
returns it record for record (row order is even preserved, not just up to
permutation), and the column-synonym rename stage is the identity on the
canonical column names, so an already-canonical table passes through
unchanged. -/
theorem c9_normalizacao_idempotente (t : List Linha) :
    normalizarDados (normalizarDados t) = normalizarDados t ∧
    colunasSistema.all (fun c => renomearColuna c == c) = true := by
  constructor
  · exact normalizarDados_fixa (normalizarDados t)
      (fun r hr => mem_normalizarDados t r hr)
  · decide

/-- C6 counterexample: `_limpar_valor` does not return `a` on `a`'s raw
decimal string serialization — `'1234.56'` parses to `123456` (the dot is
stripped as a thousands separator), a hundredfold error. -/
theorem c6_contraexemplo_decimal_cru :
    limparValor (.str "1234.56") = 123456 ∧ ((123456 : ℚ) ≠ 1234.56) := by
  constructor
  · have hclean : ((pyStrip (removeRS ("1234.56" : String).data)).filter
        (fun c => c != '.')).map (fun c => if c = ',' then '.' else c)
        = ['1', '2', '3', '4', '5', '6'] := by decide
    have hs : pySign ['1', '2', '3', '4', '5', '6']
        = (1, ['1', '2', '3', '4', '5', '6']) := rfl
    have hsplit : splitDot ['1', '2', '3', '4', '5', '6']
        = some (['1', '2', '3', '4', '5', '6'], []) := by decide
    have hp : parseNatDigits ['1', '2', '3', '4', '5', '6'] = some 123456 := by
      decide
    have hp0 : parseNatDigits ([] : List Char) = some 0 := rfl
    have hpf : pyFloat ['1', '2', '3', '4', '5', '6']
        = some ((1 : ℚ) * (((123456 : ℕ) : ℚ)
            + ((0 : ℕ) : ℚ) / 10 ^ ([] : List Char).length)) := by
      unfold pyFloat
      simp only [hs, hsplit, hp, hp0]
      rw [if_neg (by decide)]
    simp only [limparValor]
    rw [if_neg (by decide), hclean, hpf]
    push_cast
    norm_num
  · norm_num

/-- C6 (amended): on the localized currency serialization the parser is an
exact inverse — for every amount of `cents` hundredths,
`_limpar_valor (formatar_valor_br (cents / 100)) = cents / 100` — and a raw
decimal amount is accepted when it reaches the parser as a numeric value
(as the CSV reader's type inference delivers it); only the raw decimal
STRING form is misparsed (see the counterexample). -/
theorem c6_roundtrip_moeda_local (cents : ℕ) (q : ℚ) :
    limparValor (.str (formatarValorBrCents cents)) = (cents : ℚ) / 100 ∧
    limparValor (.num q) = q := by
  refine ⟨?_, rfl⟩
  have hne : formatarValorBrCents cents ≠ "" := by
    intro hh
    have hd := congrArg String.data hh
    simp [formatarValorBrCents] at hd
  have hflt : cents % 100 < 100 := Nat.mod_lt _ (by norm_num)
  have hint : ∀ c ∈ (if cents / 100 = 0 then ['0']
      else (digitosLE (cents / 100)).reverse), ∃ d, d < 10 ∧ c = Nat.digitChar d := by
    intro c hc
    by_cases hn0 : cents / 100 = 0
    · rw [if_pos hn0] at hc
      simp at hc
      exact ⟨0, by norm_num, by rw [hc]; decide⟩
    · rw [if_neg hn0, List.mem_reverse] at hc
      exact mem_digitosLE _ c hc
  have hienao : (if cents / 100 = 0 then ['0']
      else (digitosLE (cents / 100)).reverse) ≠ [] := by
    by_cases hn0 : cents / 100 = 0
    · rw [if_pos hn0]
      simp
    · rw [if_neg hn0]
      simp [digitosLE, Nat.digits_ne_nil_iff_ne_zero.mpr hn0]
  have hpi : parseNatDigits (if cents / 100 = 0 then ['0']
      else (digitosLE (cents / 100)).reverse) = some (cents / 100) := by
    by_cases hn0 : cents / 100 = 0
    · rw [if_pos hn0, hn0]
      decide
    · rw [if_neg hn0]
      exact parseNatDigits_digitos _
  have hpf := pyFloat_decimal
    (if cents / 100 = 0 then ['0'] else (digitosLE (cents / 100)).reverse)
    (doisDigitos (cents % 100)) (cents / 100) (cents % 100)
    hint (mem_doisDigitos _ hflt) hienao hpi
    (parseNatDigits_doisDigitos _ hflt)
  simp only [limparValor]
  rw [if_neg hne, limpeza_formatado, hpf]
  have hlen : (doisDigitos (cents % 100)).length = 2 := rfl
  rw [hlen]
  have hsplitc : (cents : ℚ) = 100 * ((cents / 100 : ℕ) : ℚ) + ((cents % 100 : ℕ) : ℚ) := by
    have h100 : 100 * (cents / 100) + cents % 100 = cents := Nat.div_add_mod cents 100
    exact_mod_cast h100.symm
  rw [hsplitc]
  push_cast
  ring

end Somma
